import Mathlib

/-!
Shallow embedding of the SCC (stress-corrosion-cracking) risk ranking
pipeline: src/app.py, src/utils.py, src/utils/utils.py and
src/scc_graph_app.py.

Numeric cells are modelled as `Option ℚ`: `some q` is a cell that
pandas `to_numeric(..., errors="coerce")` parses to the value `q`,
`none` is a missing or unparsable cell (NaN after coercion).  Float
arithmetic is modelled as exact rational arithmetic; NaN propagation,
where the code can produce it, is modelled explicitly with `Option`.
-/

/-- One raw spreadsheet row, after column-name stripping.  Each numeric
field holds the `pd.to_numeric` parse result of the cell (for the hoop
stress column: after stripping a percent sign), `none` meaning NaN.
The coating cell is kept as the string pandas renders for it. -/
structure RawRow where
  stationing : Option ℚ
  hoopStress : Option ℚ
  offPsp : Option ℚ
  distance : Option ℚ
  pipeAge : Option ℚ
  temperature : Option ℚ
  soil : Option ℚ
  coating : String
deriving DecidableEq

/-- A raw table: which of the named columns exist in the spreadsheet
(after `df.columns.str.strip()`), plus the rows.  Row fields of absent
columns are meaningless and never read. -/
structure RawTable where
  hasStationing : Bool
  hasHoop : Bool
  hasOffPsp : Bool
  hasDist : Bool
  hasAge : Bool
  hasTemp : Bool
  hasSoil : Bool
  hasCoating : Bool
  rows : List RawRow
deriving DecidableEq

/-- Python uppercase of a character (ASCII, as used by `str.upper` on
the coating strings appearing in the data). -/
def upChar (c : Char) : Char := c.toUpper

/-- The character list of a string, uppercased, modelling
`str(x).upper()`. -/
def upChars (s : String) : List Char := s.data.map upChar

/-- Does the candidate list start with the needle?  Helper for the
Python substring test. -/
def headMatches : List Char → List Char → Bool
  | [], _ => true
  | _ :: _, [] => false
  | n :: ns, h :: hs => n == h && headMatches ns hs

/-- Python `needle in hay` on character lists: the needle occurs as a
contiguous run somewhere in the hay. -/
def occursIn (n : List Char) : List Char → Bool
  | [] => headMatches n []
  | c :: hs => headMatches n (c :: hs) || occursIn n hs

theorem headMatches_iff (n h : List Char) :
    headMatches n h = true ↔ ∃ t, h = n ++ t := by
  induction n generalizing h with
  | nil => simp [headMatches]
  | cons c ns ih =>
    cases h with
    | nil => simp [headMatches]
    | cons d hs =>
      simp only [headMatches, Bool.and_eq_true, beq_iff_eq, ih, List.cons_append,
        List.cons.injEq]
      constructor
      · rintro ⟨rfl, t, rfl⟩
        exact ⟨t, rfl, rfl⟩
      · rintro ⟨t, rfl, rfl⟩
        exact ⟨rfl, t, rfl⟩

theorem occursIn_iff (n h : List Char) :
    occursIn n h = true ↔ ∃ p t, h = p ++ n ++ t := by
  induction h with
  | nil =>
    simp only [occursIn, headMatches_iff]
    constructor
    · rintro ⟨t, ht⟩
      exact ⟨[], t, by simpa using ht⟩
    · rintro ⟨p, t, ht⟩
      rcases List.append_eq_nil.mp (List.append_eq_nil.mp ht.symm).1 with ⟨hp, hn⟩
      exact ⟨[], by simp [hn]⟩
  | cons c hs ih =>
    simp only [occursIn, Bool.or_eq_true, headMatches_iff, ih]
    constructor
    · rintro (⟨t, ht⟩ | ⟨p, t, ht⟩)
      · exact ⟨[], t, by simpa using ht⟩
      · exact ⟨c :: p, t, by simp [ht]⟩
    · rintro ⟨p, t, ht⟩
      cases p with
      | nil => exact Or.inl ⟨t, by simpa using ht⟩
      | cons d p =>
        simp only [List.cons_append, List.cons.injEq] at ht
        exact Or.inr ⟨p, t, ht.2⟩

namespace App

/-- One normalized row of app.py after its top-level cleaning block
(lines 43-56).  Stationing and soil resistivity are never cleaned by
app.py, so they stay raw cells; all other numeric columns have been
coerced and filled. -/
structure Record where
  stationing : Option ℚ
  hoopStress : ℚ
  offPsp : ℚ
  distance : ℚ
  pipeAge : ℚ
  temperature : ℚ
  soil : Option ℚ
  coating : String
deriving DecidableEq

/-- The percent-format heuristic of app.py: after fillna(0), if the
column maximum is below 10 every value is scaled by 100.  An empty
column gives a NaN maximum, and NaN < 10 is false, so no scaling. -/
def hoopScale (rows : List RawRow) : ℚ :=
  match (rows.map (fun r => r.hoopStress.getD 0)).max? with
  | some m => if m < 10 then 100 else 1
  | none => 1

/-- The cleaning block of app.py: hoop stress coerced, filled with 0
and possibly scaled; OFF PSP coerced, absolute value, filled with 0;
distance filled with 1e9; age and temperature filled with 0.  No row
is dropped and stationing is untouched. -/
def normalize (rows : List RawRow) : List Record :=
  rows.map fun r =>
    { stationing := r.stationing
      hoopStress := (r.hoopStress.getD 0) * hoopScale rows
      offPsp := (r.offPsp.map (fun v => |v|)).getD 0
      distance := r.distance.getD (10 ^ 9)
      pipeAge := r.pipeAge.getD 0
      temperature := r.temperature.getD 0
      soil := r.soil
      coating := r.coating }

/-- The seven boolean risk flags of flags_row in app.py. -/
structure Flags where
  stress60 : Bool
  soil5000 : Bool
  dist32 : Bool
  age10 : Bool
  temp38 : Bool
  coatingHigh : Bool
  offPsp12 : Bool
deriving DecidableEq

/-- Python test any(x in str(coating).upper() for x in [CTE, COAL TAR]). -/
def coatingHigh (s : String) : Bool :=
  occursIn ("CTE".data) (upChars s) || occursIn ("COAL TAR".data) (upChars s)

/-- flags_row of app.py.  A raw NaN soil cell compares as false in
pandas, hence the none branch. -/
def flags_row (r : Record) : Flags :=
  { stress60 := if r.hoopStress > 60 then true else false
    soil5000 := match r.soil with
      | some v => if v < 5000 then true else false
      | none => false
    dist32 := if r.distance ≤ 32 then true else false
    age10 := if r.pipeAge > 10 then true else false
    temp38 := if r.temperature > 38 then true else false
    coatingHigh := coatingHigh r.coating
    offPsp12 := if r.offPsp > -(6/5) then true else false }

/-- Risk Score of app.py: the row sum of the flag indicator columns. -/
def flagCount (f : Flags) : ℕ :=
  f.stress60.toNat + f.soil5000.toNat + f.dist32.toNat + f.age10.toNat +
    f.temp38.toNat + f.coatingHigh.toNat + f.offPsp12.toNat

/-- The SCC Risk lambda of app.py: High if x >= 4 else Medium if
x >= 2 else Low. -/
def sccRisk (x : ℕ) : String :=
  if x ≥ 4 then "High" else if x ≥ 2 then "Medium" else "Low"

/-- A fully assessed row: the record together with its flags, its
Risk Score and its SCC Risk category. -/
structure Assessed where
  record : Record
  flags : Flags
  score : ℕ
  category : String
deriving DecidableEq

/-- The assessment stage of app.py: flags, Risk Score and SCC Risk
columns appended to every normalized row. -/
def assess (rows : List RawRow) : List Assessed :=
  (normalize rows).map fun r =>
    { record := r
      flags := flags_row r
      score := flagCount (flags_row r)
      category := sccRisk (flagCount (flags_row r)) }

/-- The multi-column sort key of the app.py Top-50 sort, oriented so
that ascending lexicographic order realizes
ascending=[False, False, False, True, False, False] on
[Risk Score, hoop stress, OFF PSP, distance, pipe age, temperature]. -/
def sortKey (a : Assessed) : List ℚ :=
  [-(a.score : ℚ), -a.record.hoopStress, -a.record.offPsp, a.record.distance,
    -a.record.pipeAge, -a.record.temperature]

/-- Ascending lexicographic comparison of key lists. -/
def lexLe : List ℚ → List ℚ → Bool
  | [], _ => true
  | _ :: _, [] => false
  | a :: as, b :: bs => if a < b then true else if b < a then false else lexLe as bs

def keyLe (a b : Assessed) : Bool := lexLe (sortKey a) (sortKey b)

/-- The Top-50 sort of app.py.  pandas sort_values with a list of by
columns sorts with the stable lexsort indexer, modelled by the stable
mergeSort under the lexicographic key comparison. -/
def sortAssessed (l : List Assessed) : List Assessed := l.mergeSort keyLe

/-- head(50) of the sorted assessed table. -/
def top50 (l : List Assessed) : List Assessed := (sortAssessed l).take 50

theorem lexLe_refl : ∀ xs : List ℚ, lexLe xs xs = true := by
  intro xs
  induction xs with
  | nil => rfl
  | cons a as ih => simp [lexLe, lt_irrefl, ih]

theorem lexLe_total : ∀ xs ys : List ℚ, lexLe xs ys || lexLe ys xs := by
  intro xs
  induction xs with
  | nil => intro ys; simp [lexLe]
  | cons a as ih =>
    intro ys
    cases ys with
    | nil => simp [lexLe]
    | cons b bs =>
      rcases lt_trichotomy a b with hab | hab | hab
      · simp [lexLe, if_pos hab]
      · subst hab
        simpa [lexLe, lt_irrefl] using ih bs
      · simp [lexLe, if_pos hab, if_neg (asymm hab)]

theorem lexLe_trans : ∀ xs ys zs : List ℚ,
    lexLe xs ys = true → lexLe ys zs = true → lexLe xs zs = true := by
  intro xs
  induction xs with
  | nil => intro ys zs _ _; cases zs <;> rfl
  | cons a as ih =>
    intro ys zs h1 h2
    cases ys with
    | nil => simp [lexLe] at h1
    | cons b bs =>
      cases zs with
      | nil => simp [lexLe] at h2
      | cons c cs =>
        simp only [lexLe] at h1 h2 ⊢
        rcases lt_trichotomy a b with hab | hab | hab
        · rcases lt_trichotomy b c with hbc | hbc | hbc
          · rw [if_pos (lt_trans hab hbc)]
          · subst hbc
            rw [if_pos hab]
          · rw [if_neg (asymm hbc), if_pos hbc] at h2
            simp at h2
        · subst hab
          rw [if_neg (lt_irrefl a), if_neg (lt_irrefl a)] at h1
          rcases lt_trichotomy a c with hac | hac | hac
          · rw [if_pos hac]
          · subst hac
            rw [if_neg (lt_irrefl a), if_neg (lt_irrefl a)] at h2 ⊢
            exact ih bs cs h1 h2
          · rw [if_neg (asymm hac), if_pos hac] at h2
            simp at h2
        · rw [if_neg (asymm hab), if_pos hab] at h1
          simp at h1

theorem keyLe_total (a b : Assessed) : keyLe a b || keyLe b a :=
  lexLe_total (sortKey a) (sortKey b)

theorem keyLe_trans (a b c : Assessed) :
    keyLe a b → keyLe b c → keyLe a c :=
  fun h1 h2 => lexLe_trans (sortKey a) (sortKey b) (sortKey c) h1 h2

end App

namespace Utils

/-- The failure load_data can actually produce: df.get of an absent
column returns the scalar default 0 (or the empty string for the
coating column), and calling fillna (or astype) on that scalar raises
AttributeError.  The message names the scalar type and the method,
never a column. -/
inductive LoadErr where
  | attrError
deriving DecidableEq

/-- The column names an AttributeError mentions: none. -/
def LoadErr.columnsNamed : LoadErr → List String
  | .attrError => []

/-- One row of the frame returned by load_data of utils.py.  The hoop
and offPsp fields are meaningful only when the corresponding column
flag of the surrounding LoadedTable is true: load_data guards those
two columns with an in-columns test and silently skips them when
absent, so the returned frame then simply has no such column. -/
structure Row where
  stationing : Option ℚ
  hoop : ℚ
  offPsp : ℚ
  dist : ℚ
  age : ℚ
  temp : ℚ
  soil : ℚ
  coating : String
deriving DecidableEq

/-- The frame produced by a successful load_data call. -/
structure LoadedTable where
  hasHoop : Bool
  hasOffPsp : Bool
  rows : List Row
deriving DecidableEq

/-- The percent-format heuristic, identical to the app.py one. -/
def hoopScale (rows : List RawRow) : ℚ :=
  match (rows.map (fun r => r.hoopStress.getD 0)).max? with
  | some m => if m < 10 then 100 else 1
  | none => 1

/-- load_data of utils.py.  OFF PSP and hoop stress are cleaned only
when their columns exist; the five df.get columns (distance, age,
temperature, soil, coating, in source order) raise AttributeError when
absent, because the scalar default has no fillna or astype method;
otherwise the cells are coerced and filled with the documented
sentinels.  No row is ever dropped and stationing is never touched. -/
def load_data (t : RawTable) : Except LoadErr LoadedTable :=
  if t.hasDist = false then .error .attrError
  else if t.hasAge = false then .error .attrError
  else if t.hasTemp = false then .error .attrError
  else if t.hasSoil = false then .error .attrError
  else if t.hasCoating = false then .error .attrError
  else .ok
    { hasHoop := t.hasHoop
      hasOffPsp := t.hasOffPsp
      rows := t.rows.map fun r =>
        { stationing := r.stationing
          hoop := if t.hasHoop then (r.hoopStress.getD 0) * hoopScale t.rows else 0
          offPsp := if t.hasOffPsp then (r.offPsp.map (fun v => |v|)).getD 0 else 0
          dist := r.distance.getD (10 ^ 6)
          age := r.pipeAge.getD 0
          temp := r.temperature.getD 0
          soil := r.soil.getD (10 ^ 9)
          coating := r.coating } }

/-- The CoatingHighRisk column of flag_criteria in utils.py: true for
every coating whose uppercase form is not exactly FBE or LIQUID
EPOXY. -/
def coatingHighRisk (s : String) : Bool :=
  if upChars s = "FBE".data then false
  else if upChars s = "LIQUID EPOXY".data then false
  else true

/-- flag_criteria of utils.py (dict order in the source differs; the
flags are independent). -/
def flag_criteria (r : Row) : App.Flags :=
  { stress60 := if r.hoop > 60 then true else false
    soil5000 := if r.soil < 5000 then true else false
    dist32 := if r.dist ≤ 32 then true else false
    age10 := if r.age > 10 then true else false
    temp38 := if r.temp > 38 then true else false
    coatingHigh := coatingHighRisk r.coating
    offPsp12 := if r.offPsp > -(6/5) then true else false }

/-- np.clip of a rational value into an interval. -/
def qclip (x lo hi : ℚ) : ℚ := min hi (max lo x)

/-- Python x or 1 applied to the float maximum: 0.0 is falsy and
becomes 1, while NaN (modelled by none) is truthy and is kept, so the
fallback does not fire on an undefined maximum. -/
def pyOr1 : Option ℚ → Option ℚ
  | none => none
  | some x => if x = 0 then some 1 else some x

/-- Series.replace(0, nan).max() or 1: the NaN-skipping maximum of the
nonzero distances, then the Python or-fallback. -/
def max_dist (rs : List Row) : Option ℚ :=
  pyOr1 (((rs.map (fun r => r.dist)).filter (fun d => if d = 0 then false else true)).max?)

/-- The psp series of compute_risk_score (invert PSP scale). -/
def psp_term (r : Row) : ℚ := 1 - ((r.offPsp + 2) / 2)

/-- The per-row weighted sum of compute_risk_score, given the dataset
maximum distance m. -/
def rowVal (m : ℚ) (r : Row) : ℚ :=
  (r.hoop / 100) * (6/10) + psp_term r * (3/10) +
    ((m - r.dist) / m) * (2/10) + (1 - qclip (r.soil / 10000) 0 1) * (1/10)

/-- compute_risk_score of utils.py: each row score combines the four
normalized terms; when max_dist is NaN the dist_norm term, and with it
every score in the column, is NaN. -/
def compute_risk_score (rs : List Row) : List (Option ℚ) :=
  rs.map fun r => (max_dist rs).map fun m => rowVal m r

/-- Modelled from the spec: max_dist as section 4.3 words it, namely
the maximum distance across the dataset, treated as 1 if the maximum
is 0 or undefined, to avoid division by zero. -/
def specMaxDist (rs : List Row) : ℚ :=
  match (rs.map (fun r => r.dist)).max? with
  | some m => if m = 0 then 1 else m
  | none => 1

/-- Modelled from the spec: the composite weighted score formula of
section 4.3, stated with the spec reading of max_dist. -/
def specScore (rs : List Row) (r : Row) : ℚ :=
  (6/10) * (r.hoop / 100) + (3/10) * (1 - (r.offPsp + 2) / 2) +
    (2/10) * ((specMaxDist rs - r.dist) / specMaxDist rs) +
    (1/10) * (1 - qclip (r.soil / 10000) 0 1)

end Utils

namespace Graph

/-- One row as scc_risk_score of scc_graph_app.py sees it: each
numeric field is the float(...) outcome of the cell, none meaning the
conversion or the column lookup raises; the coating field is none
when row.get does not yield a string (the isinstance guard). -/
structure GRow where
  hoop : Option ℚ
  coating : Option String
  dist : Option ℚ
  offPsp : Option ℚ
  age : Option ℚ
  temp : Option ℚ
deriving DecidableEq

/-- Python str.lower on the coating characters. -/
def lowChars (s : String) : List Char := s.data.map Char.toLower

/-- scc_risk_score: the six criteria are scored sequentially inside a
single try block; the first failing float conversion jumps to the bare
except handler, which returns the points accrued so far.  The coating
criterion cannot raise thanks to its isinstance guard. -/
def scc_risk_score (r : GRow) : ℕ :=
  match r.hoop with
  | none => 0
  | some h =>
    (if h ≥ 60 then 10 else 0) +
    (match r.coating with
      | some c => if occursIn ("plant cte".data) (lowChars c) then 10 else 0
      | none => 0) +
    (match r.dist with
      | none => 0
      | some d =>
        (if d < 32 then 10 else 0) +
        (match r.offPsp with
          | none => 0
          | some p =>
            (if p > 6/5 then 5 else 0) +
            (match r.age with
              | none => 0
              | some a =>
                (if a > 10 then 10 else 0) +
                (match r.temp with
                  | none => 0
                  | some t => if t > 38 then 10 else 0))))

end Graph

section Claims

/-- Auxiliary: a conditional award of k points is k times the
indicator of its condition. -/
theorem ite_points (P : Prop) [Decidable P] (k : ℕ) :
    (if P then k else 0) = k * (decide P).toNat := by
  by_cases h : P <;> simp [h]

/-- A complete raw row used by several witnesses; its OFF PSP cell
holds the raw reading -1.5 from the spec example. -/
def rawA : RawRow :=
  { stationing := some 0, hoopStress := some 70, offPsp := some (-(3/2)),
    distance := some 5, pipeAge := some 12, temperature := some 40,
    soil := some 1000, coating := "CTE" }

/-- A second complete raw row; its OFF PSP cell holds 0.9, the other
half of the spec example. -/
def rawB : RawRow :=
  { stationing := some 10, hoopStress := some 50, offPsp := some (9/10),
    distance := some 8, pipeAge := some 3, temperature := some 20,
    soil := some 9000, coating := "FBE" }

/-- C4: risk_category is the monotone banding of flag_count: High for
4 and above, Medium for exactly 2 or 3, Low for 0 or 1; in particular
 4 gives High, 3 Medium, 1 Low, 0 Low, 7 High, and every assessed
record carries the category of its own flag count. -/
theorem c4_risk_category_bands :
    (∀ rows a, a ∈ App.assess rows → a.category = App.sccRisk a.score) ∧
    (∀ n : ℕ, (App.sccRisk n = "High" ↔ 4 ≤ n) ∧
      (App.sccRisk n = "Medium" ↔ n = 2 ∨ n = 3) ∧
      (App.sccRisk n = "Low" ↔ n ≤ 1)) ∧
    App.sccRisk 4 = "High" ∧ App.sccRisk 3 = "Medium" ∧
    App.sccRisk 1 = "Low" ∧ App.sccRisk 0 = "Low" ∧ App.sccRisk 7 = "High" := by
  refine ⟨?_, ?_, by norm_num [App.sccRisk], by norm_num [App.sccRisk],
    by norm_num [App.sccRisk], by norm_num [App.sccRisk], by norm_num [App.sccRisk]⟩
  · intro rows a ha
    rcases List.mem_map.mp ha with ⟨r, _, rfl⟩
    rfl
  · intro n
    unfold App.sccRisk
    split_ifs with h1 h2 <;> simp_all <;> omega

/-- The assessed row that App.assess builds from rawA alone: all seven
flags hold, so the score is 7 and the category High. -/
def c4assessed : App.Assessed :=
  { record := { stationing := some 0, hoopStress := 70, offPsp := 3/2, distance := 5,
                pipeAge := 12, temperature := 40, soil := some 1000, coating := "CTE" }
    flags := { stress60 := true, soil5000 := true, dist32 := true, age10 := true,
               temp38 := true, coatingHigh := true, offPsp12 := true }
    score := 7
    category := "High" }

/-- Witness for C4: the bands at a concrete flag count, and the
category-of-flag-count clause at a concrete assessed record. -/
theorem c4_risk_category_bands_witness :
    App.sccRisk 5 = "High" ∧ c4assessed.category = App.sccRisk c4assessed.score :=
  ⟨(c4_risk_category_bands.2.1 5).1.mpr (by omega),
   c4_risk_category_bands.1 [rawA] c4assessed (by
     have hc : App.coatingHigh ("CTE") = true := by decide
     norm_num [App.assess, App.normalize, App.hoopScale, App.flags_row, App.flagCount,
       App.sccRisk, rawA, c4assessed, hc]
     rw [abs_of_nonneg]
     norm_num
     norm_num)⟩

/-- A concrete row for the fixed-point scorer: the stress and coating
criteria score 10 points each, then the distance cell fails float
conversion, so the age and temperature criteria (which would both
match) are never reached and the accrued 20 points are returned. -/
def c9row : Graph.GRow :=
  { hoop := some 70, coating := some ("Plant CTE coating"), dist := none,
    offPsp := some 2, age := some 20, temp := some 40 }

set_option maxHeartbeats 1000000 in
/-- Helper for C9: the score always decomposes as a subset sum of the
six point awards 10, 10, 10, 5, 10, 10. -/
theorem scc_risk_score_shape (r : Graph.GRow) :
    ∃ b1 b2 b3 b4 b5 b6 : Bool,
      Graph.scc_risk_score r =
        10 * b1.toNat + 10 * b2.toNat + 10 * b3.toNat + 5 * b4.toNat +
          10 * b5.toNat + 10 * b6.toNat := by
  rcases r with ⟨h, c, d, p, a, t⟩
  rcases h with _ | h
  · exact ⟨false, false, false, false, false, false, rfl⟩
  rcases c with _ | c <;> rcases d with _ | d <;> rcases p with _ | p <;>
    rcases a with _ | a <;> rcases t with _ | t <;>
    simp only [Graph.scc_risk_score] <;> split_ifs <;> decide

/-- C9: the fixed-point scorer is total, always lands in [0, 55], is a
subset sum of the point values 10, 10, 10, 5, 10, 10, and when a float
conversion fails partway it returns the points accrued before that
point rather than 0 or an error. -/
theorem c9_fixed_point_scorer :
    (∀ r : Graph.GRow, Graph.scc_risk_score r ≤ 55) ∧
    (∀ r : Graph.GRow, ∃ b1 b2 b3 b4 b5 b6 : Bool,
      Graph.scc_risk_score r =
        10 * b1.toNat + 10 * b2.toNat + 10 * b3.toNat + 5 * b4.toNat +
          10 * b5.toNat + 10 * b6.toNat) ∧
    Graph.scc_risk_score c9row = 20 := by
  refine ⟨?_, scc_risk_score_shape, by norm_num [Graph.scc_risk_score, c9row]; decide⟩
  intro r
  rcases scc_risk_score_shape r with ⟨b1, b2, b3, b4, b5, b6, hb⟩
  have t1 := Bool.toNat_le b1
  have t2 := Bool.toNat_le b2
  have t3 := Bool.toNat_le b3
  have t4 := Bool.toNat_le b4
  have t5 := Bool.toNat_le b5
  have t6 := Bool.toNat_le b6
  omega

/-- C3: normalization replaces OFF PSP by the absolute value of the
parsed cell (0 when the cell is NaN), so every normalized value is
non-negative and the OverProtected comparison against -1.2 holds on
every record; the guarded OFF PSP branch of utils.py load_data applies
the same absolute-value fill. -/
theorem c3_offpsp_abs_always_flagged (rows : List RawRow) (r : App.Record)
    (hr : r ∈ App.normalize rows) :
    (∃ raw ∈ rows, r.offPsp = ((raw.offPsp).map (fun v => |v|)).getD 0) ∧
    0 ≤ r.offPsp ∧ (App.flags_row r).offPsp12 = true := by
  rcases List.mem_map.mp hr with ⟨raw, hraw, rfl⟩
  have hnn : (0:ℚ) ≤ ((raw.offPsp).map (fun v => |v|)).getD 0 := by
    rcases raw.offPsp with _ | v
    · simp
    · simp
  refine ⟨⟨raw, hraw, rfl⟩, hnn, ?_⟩
  simp only [App.flags_row]
  rw [if_pos]
  dsimp only
  linarith

/-- The record that App.normalize produces from rawA in the dataset
[rawA, rawB]: its OFF PSP value is the absolute value 1.5. -/
def c3rec : App.Record :=
  { stationing := some 0, hoopStress := 70, offPsp := 3/2, distance := 5,
    pipeAge := 12, temperature := 40, soil := some 1000, coating := "CTE" }

/-- Witness for C3 at the spec example [-1.5, 0.9]. -/
theorem c3_offpsp_abs_always_flagged_witness :
    (∃ raw ∈ [rawA, rawB], c3rec.offPsp = ((raw.offPsp).map (fun v => |v|)).getD 0) ∧
    0 ≤ c3rec.offPsp ∧ (App.flags_row c3rec).offPsp12 = true :=
  c3_offpsp_abs_always_flagged [rawA, rawB] c3rec
    (by
      norm_num [App.normalize, App.hoopScale, rawA, rawB, c3rec]
      rw [abs_of_nonneg] ; norm_num)

/-- A normalized record whose pipe age is exactly 10 years. -/
def c6rec : App.Record :=
  { stationing := some 0, hoopStress := 0, offPsp := 0, distance := 10 ^ 9,
    pipeAge := 10, temperature := 0, soil := none, coating := "" }

/-- C6 counterexample: a record with pipe age exactly 10 does not get
the age flag, because both variants compare with a strict greater
than. -/
theorem c6_counterexample : (App.flags_row c6rec).age10 = false := by
  norm_num [App.flags_row, c6rec]

/-- C6 amended: the PipeOld predicate is the strict comparison
age > 10 in app.py and in utils.py alike, so age exactly 10 is not
flagged while any age above 10 is. -/
theorem c6_age_flag_strict :
    (∀ r : App.Record, ((App.flags_row r).age10 = true ↔ 10 < r.pipeAge)) ∧
    (∀ r : Utils.Row, ((Utils.flag_criteria r).age10 = true ↔ 10 < r.age)) ∧
    (∀ r : App.Record, r.pipeAge = 10 → (App.flags_row r).age10 = false) := by
  refine ⟨?_, ?_, ?_⟩
  · intro r
    simp only [App.flags_row]
    split_ifs with h <;> simp [h]
  · intro r
    simp only [Utils.flag_criteria]
    split_ifs with h <;> simp [h]
  · intro r h10
    simp only [App.flags_row]
    rw [if_neg]
    rw [h10]
    exact lt_irrefl 10

/-- Witness for C6 amended at the concrete age-10 record. -/
theorem c6_age_flag_strict_witness : (App.flags_row c6rec).age10 = false :=
  c6_age_flag_strict.2.2 c6rec rfl

/-- A normalized record carrying the COAL-TAR coating string. -/
def c7rec : App.Record :=
  { stationing := some 0, hoopStress := 0, offPsp := 0, distance := 10 ^ 9,
    pipeAge := 0, temperature := 0, soil := none, coating := "COAL-TAR" }

/-- C7 counterexample: in app.py the coating COAL-TAR does not set the
flag (its hyphen never matches the space of COAL TAR, and it does not
contain CTE), contradicting the claim; and the utils.py variant is not
a contains test at all: STEEL contains neither needle yet is
flagged. -/
theorem c7_counterexample :
    (App.flags_row c7rec).coatingHigh = false ∧
    Utils.coatingHighRisk ("STEEL") = true := by
  constructor
  · show App.coatingHigh ("COAL-TAR") = false
    decide
  · decide

/-- C7 amended: in app.py the CoatingSensitive flag is true exactly
when the uppercased coating contains CTE or COAL TAR as a contiguous
substring; cte liner and Coal Tar Enamel qualify, FBE does not, and
COAL-TAR does not either (the hyphen never matches the space).  The
utils.py variant uses a different rule altogether, flagging everything
other than exactly FBE or LIQUID EPOXY. -/
theorem c7_coating_contains :
    (∀ r : App.Record, ((App.flags_row r).coatingHigh = true ↔
      (∃ p t, upChars r.coating = p ++ "CTE".data ++ t) ∨
      (∃ p t, upChars r.coating = p ++ "COAL TAR".data ++ t))) ∧
    App.coatingHigh ("cte liner") = true ∧
    App.coatingHigh ("Coal Tar Enamel") = true ∧
    App.coatingHigh ("FBE") = false ∧
    App.coatingHigh ("COAL-TAR") = false := by
  refine ⟨?_, by decide, by decide, by decide, by decide⟩
  intro r
  show App.coatingHigh r.coating = true ↔ _
  simp only [App.coatingHigh, Bool.or_eq_true, occursIn_iff]

/-- A raw row whose stationing cell is unparsable (NaN). -/
def rawNoStation : RawRow :=
  { stationing := none, hoopStress := some 70, offPsp := some 1,
    distance := some 5, pipeAge := some 12, temperature := some 40,
    soil := some 1000, coating := "CTE" }

/-- Sorting a one-row table is the identity, so the head(50) of it is
that same row. -/
theorem top50_singleton (x : App.Assessed) : App.top50 [x] = [x] := by
  simp [App.top50, App.sortAssessed]

/-- C2 counterexample: a row with an unparsable stationing cell is not
dropped: it flows through normalization into the assessed set and into
the Top-50 output, stationing NaN and all. -/
theorem c2_counterexample :
    (App.assess [rawNoStation]).map (fun a => a.record.stationing) = [none] ∧
    (App.top50 (App.assess [rawNoStation])).map (fun a => a.record.stationing) = [none] := by
  obtain ⟨x, hx⟩ : ∃ x, App.assess [rawNoStation] = [x] := ⟨_, rfl⟩
  constructor
  · rfl
  · rw [hx, top50_singleton, ← hx]
    rfl

/-- C2 amended: no row is ever dropped anywhere in the pipeline:
app.py normalization and utils.py load_data preserve the row count and
leave every stationing cell untouched (a row with unparsable
stationing is kept with a NaN stationing value), while a missing
distance, age or temperature cell is replaced by its fallback sentinel
instead of dropping the row. -/
theorem c2_no_rows_dropped :
    (∀ rows, (App.normalize rows).map (fun r => r.stationing) =
      rows.map (fun r => r.stationing)) ∧
    (∀ rows, (App.assess rows).length = rows.length) ∧
    (∀ t tb, Utils.load_data t = .ok tb →
      tb.rows.map (fun r => r.stationing) = t.rows.map (fun r => r.stationing)) ∧
    (∀ rows r', r' ∈ App.normalize rows → ∃ r ∈ rows, r'.stationing = r.stationing ∧
      (r.distance = none → r'.distance = 10 ^ 9) ∧
      (r.pipeAge = none → r'.pipeAge = 0) ∧
      (r.temperature = none → r'.temperature = 0)) := by
  refine ⟨?_, ?_, ?_, ?_⟩
  · intro rows
    simp [App.normalize, List.map_map]
  · intro rows
    simp [App.assess, App.normalize]
  · intro t tb h
    simp only [Utils.load_data] at h
    split_ifs at h
    all_goals
      first
      | exact Except.noConfusion h
      | (injection h with h2; subst h2; simp [List.map_map])
  · intro rows r' hr
    rcases List.mem_map.mp hr with ⟨r, hmem, rfl⟩
    refine ⟨r, hmem, rfl, ?_, ?_, ?_⟩ <;> intro hnone <;> simp [hnone]

/-- A raw row with a missing distance cell. -/
def rawNoDist : RawRow :=
  { stationing := some 3, hoopStress := some 70, offPsp := some 1,
    distance := none, pipeAge := some 2, temperature := some 5,
    soil := some 1000, coating := "" }

/-- The record App.normalize produces from rawNoDist alone: kept, with
the 1e9 distance sentinel. -/
def c2rec : App.Record :=
  { stationing := some 3, hoopStress := 70, offPsp := 1, distance := 10 ^ 9,
    pipeAge := 2, temperature := 5, soil := some 1000, coating := "" }

/-- The full-columns table holding only the row with the missing
distance cell. -/
def tC2 : RawTable :=
  { hasStationing := true, hasHoop := true, hasOffPsp := true, hasDist := true,
    hasAge := true, hasTemp := true, hasSoil := true, hasCoating := true,
    rows := [rawNoDist] }

/-- What load_data returns on tC2: the row is kept, distance filled
with the 1e6 sentinel. -/
def c2loaded : Utils.LoadedTable :=
  { hasHoop := true, hasOffPsp := true,
    rows := [{ stationing := some 3, hoop := 70, offPsp := 1, dist := 10 ^ 6,
               age := 2, temp := 5, soil := 1000, coating := "" }] }

/-- Witness for C2 amended: the load_data stationing-preservation
clause and the sentinel-fill clause, both at the concrete row with a
missing distance cell. -/
theorem c2_no_rows_dropped_witness :
    (c2loaded.rows.map (fun r => r.stationing) = tC2.rows.map (fun r => r.stationing)) ∧
    ∃ r ∈ [rawNoDist], c2rec.stationing = r.stationing ∧
      (r.distance = none → c2rec.distance = 10 ^ 9) ∧
      (r.pipeAge = none → c2rec.pipeAge = 0) ∧
      (r.temperature = none → c2rec.temperature = 0) :=
  ⟨c2_no_rows_dropped.2.2.1 tC2 c2loaded
     (by norm_num [Utils.load_data, Utils.hoopScale, tC2, rawNoDist, c2loaded]),
   c2_no_rows_dropped.2.2.2 [rawNoDist] c2rec
     (by norm_num [App.normalize, App.hoopScale, rawNoDist, c2rec])⟩

/-- A table with every column except Pipe Age. -/
def tMissingAge : RawTable :=
  { hasStationing := true, hasHoop := true, hasOffPsp := true, hasDist := true,
    hasAge := false, hasTemp := true, hasSoil := true, hasCoating := true,
    rows := [rawA] }

/-- A table with every column except OFF PSP. -/
def tMissingPsp : RawTable :=
  { hasStationing := true, hasHoop := true, hasOffPsp := false, hasDist := true,
    hasAge := true, hasTemp := true, hasSoil := true, hasCoating := true,
    rows := [rawA] }

/-- C1 counterexample: a table missing only the Pipe Age column makes
load_data fail with an AttributeError (fillna called on the scalar
default that df.get returns for a missing column), an error that names
no column at all, instead of a SchemaError listing Pipe Age. -/
theorem c1_counterexample :
    Utils.load_data tMissingAge = .error .attrError ∧
    Utils.LoadErr.columnsNamed .attrError = [] :=
  ⟨rfl, rfl⟩

/-- C1 amended: there is no schema validation: load_data succeeds
exactly when the five df.get columns (distance, age, temperature,
soil, coating) are present, regardless of the guarded hoop-stress and
OFF-PSP columns, which are skipped silently when absent; its only
failure is an AttributeError naming no column. -/
theorem c1_no_schema_error :
    (∀ t : RawTable, (Utils.load_data t).isOk = true ↔
      (t.hasDist && t.hasAge && t.hasTemp && t.hasSoil && t.hasCoating) = true) ∧
    (∀ t e, Utils.load_data t = .error e → Utils.LoadErr.columnsNamed e = []) := by
  constructor
  · intro t
    simp only [Utils.load_data]
    split_ifs with h1 h2 h3 h4 h5 <;> simp_all [Except.isOk, Except.toBool]
  · intro t e _
    cases e
    rfl

/-- Witness for C1 amended: the table missing only OFF PSP loads
without any error, and the error of the table missing Pipe Age names
no columns. -/
theorem c1_no_schema_error_witness :
    (Utils.load_data tMissingPsp).isOk = true ∧
    Utils.LoadErr.columnsNamed .attrError = [] :=
  ⟨(c1_no_schema_error.1 tMissingPsp).mpr (by decide),
   c1_no_schema_error.2 tMissingAge .attrError rfl⟩

/-- A one-row dataset whose only distance is 0: after replace(0, nan)
the distance maximum is NaN. -/
def c5row : Utils.Row :=
  { stationing := some 0, hoop := 50, offPsp := 1, dist := 0, age := 0,
    temp := 0, soil := 0, coating := "FBE" }

/-- The same row with a nonzero distance, for the agreeing case. -/
def c5rowB : Utils.Row :=
  { stationing := some 0, hoop := 50, offPsp := 1, dist := 5, age := 0,
    temp := 0, soil := 0, coating := "FBE" }

/-- C5: on the failing input (a dataset all of whose distances are 0)
the replace-0-with-NaN maximum is NaN and Python or-1 keeps NaN, NaN
being truthy, so the whole score column is NaN; the spec formula,
whose max_dist is treated as 1 there, gives the finite score 9/20.  On
a dataset with a nonzero distance the code and the spec formula
agree. -/
theorem c5_nan_score_on_zero_distances :
    Utils.compute_risk_score [c5row] = [none] ∧
    Utils.specScore [c5row] c5row = 9/20 ∧
    Utils.compute_risk_score [c5rowB] = [some (Utils.specScore [c5rowB] c5rowB)] := by
  refine ⟨?_, ?_, ?_⟩
  · norm_num [Utils.compute_risk_score, Utils.max_dist, Utils.pyOr1, c5row]
  · norm_num [Utils.specScore, Utils.specMaxDist, Utils.qclip, c5row]
  · norm_num [Utils.compute_risk_score, Utils.max_dist, Utils.pyOr1, Utils.rowVal,
      Utils.psp_term, Utils.qclip, Utils.specScore, Utils.specMaxDist, c5rowB]

/-- C10: with a non-negative off_psp_v (as after abs-normalization)
the weighted psp term of compute_risk_score is non-positive, and the
per-row score is non-increasing in off_psp_v when every other field
and the dataset maximum distance are held fixed. -/
theorem c10_score_antitone_in_psp (m : ℚ) (r : Utils.Row) (v w : ℚ)
    (h0 : 0 ≤ v) (hvw : v ≤ w) :
    Utils.psp_term { r with offPsp := v } * (3/10) ≤ 0 ∧
    Utils.rowVal m { r with offPsp := w } ≤ Utils.rowVal m { r with offPsp := v } := by
  constructor
  · simp only [Utils.psp_term]
    linarith
  · simp only [Utils.rowVal, Utils.psp_term, Utils.qclip]
    linarith

/-- Witness for C10 at a concrete record, raising off_psp_v from 0 to
1. -/
theorem c10_score_antitone_in_psp_witness :
    Utils.psp_term { c5rowB with offPsp := 0 } * (3/10) ≤ 0 ∧
    Utils.rowVal 5 { c5rowB with offPsp := 1 } ≤ Utils.rowVal 5 { c5rowB with offPsp := 0 } :=
  c10_score_antitone_in_psp 5 c5rowB 0 1 le_rfl (by norm_num)

/-- Key-equality test used to state stability: does an assessed row
carry exactly the sort key k? -/
def keyIs (k : List ℚ) (x : App.Assessed) : Bool :=
  if App.sortKey x = k then true else false

theorem keyIs_eq {k : List ℚ} {x : App.Assessed} (h : keyIs k x = true) :
    App.sortKey x = k := by
  by_contra hne
  simp only [keyIs, if_neg hne] at h
  exact Bool.false_ne_true h

/-- C8: the Top-50 sort is stable.  pandas sort_values with a list of
by columns uses the stable lexsort indexer, modelled here by the
stable mergeSort: rows agreeing on the whole six-component sort key
appear in the sorted table in exactly their input order, and the
key-equal rows of the Top-50 head are an initial segment of the
key-equal rows of the ranker input. -/
theorem c8_ranker_stability (l : List App.Assessed) (k : List ℚ) :
    (App.sortAssessed l).filter (keyIs k) = l.filter (keyIs k) ∧
    ∃ t, l.filter (keyIs k) = (App.top50 l).filter (keyIs k) ++ t := by
  have hpair : (l.filter (keyIs k)).Pairwise (fun a b => App.keyLe a b = true) := by
    apply List.pairwise_of_forall_mem_list
    intro a ha b hb
    have hka := keyIs_eq (List.mem_filter.mp ha).2
    have hkb := keyIs_eq (List.mem_filter.mp hb).2
    show App.lexLe (App.sortKey a) (App.sortKey b) = true
    rw [hka, hkb]
    exact App.lexLe_refl k
  have hsub : List.Sublist (l.filter (keyIs k)) (List.mergeSort l App.keyLe) :=
    List.sublist_mergeSort App.keyLe_trans App.keyLe_total hpair (List.filter_sublist l)
  have hself : (l.filter (keyIs k)).filter (keyIs k) = l.filter (keyIs k) :=
    List.filter_eq_self.mpr (fun a ha => (List.mem_filter.mp ha).2)
  have hsubf : List.Sublist (l.filter (keyIs k))
      ((List.mergeSort l App.keyLe).filter (keyIs k)) := by
    have h2 := hsub.filter (keyIs k)
    rwa [hself] at h2
  have hperm : ((List.mergeSort l App.keyLe).filter (keyIs k)).Perm (l.filter (keyIs k)) :=
    (List.mergeSort_perm l App.keyLe).filter (keyIs k)
  have hmain : (App.sortAssessed l).filter (keyIs k) = l.filter (keyIs k) :=
    (hsubf.eq_of_length hperm.length_eq.symm).symm
  refine ⟨hmain, ((App.sortAssessed l).drop 50).filter (keyIs k), ?_⟩
  rw [← hmain, App.top50, ← List.filter_append, List.take_append_drop]

end Claims
